import Mathlib

/-
  Verification development for the Taxi MDP reinforcement-learning project.

  The repository ships a React frontend (two revisions of the useTaxiState
  hook in src/frontend/src/types/taxi.ts: an earlier local placeholder hook
  and the socket.io-backed hook) together with the backend protocol
  documentation (src/backend/API.md).  The backend engine itself (GridWorld,
  agent, scheduler) is not part of the sources, so those parts are modelled
  from the specification where a claim needs them; every definition below
  either transcribes a function of taxi.ts or is explicitly marked as
  modelled from the spec.
-/

namespace TaxiMDP

/-- Integer pair (x, y); transcribes the Position interface of taxi.ts.
JS numbers on these code paths only ever hold integers, so Int is used. -/
structure Position where
  x : Int
  y : Int
deriving DecidableEq

/-- Transcribes the GridState interface of taxi.ts. -/
structure GridState where
  gridSize : Int
  taxi : Position
  passenger : Option Position
  destination : Option Position
  obstacles : List Position
  isPassengerInTaxi : Bool
deriving DecidableEq

/-- Transcribes the AgentParams interface of taxi.ts; the float fields are
modelled as rationals. -/
structure AgentParams where
  gamma : ℚ
  alpha : ℚ
  epsilon : ℚ
  qTableSize : Int
deriving DecidableEq

/-- Transcribes the TrainingState interface of taxi.ts. -/
structure TrainingState where
  isTraining : Bool
  currentEpisode : Int
  totalEpisodes : Int
  currentStep : Int
  currentReward : ℚ
  speedMultiplier : Int
deriving DecidableEq

/-- Transcribes the EpisodeStats interface of taxi.ts (reward and steps are
JS numbers entering an average, modelled as rationals). -/
structure EpisodeStats where
  episode : Int
  reward : ℚ
  steps : ℚ
deriving DecidableEq

/-- Transcribes the LastAction interface of taxi.ts. -/
structure LastAction where
  action : String
  reward : ℚ
  result : String
deriving DecidableEq

/-- Transcribes the ConnectionStatus union type of taxi.ts. -/
inductive ConnStatus
  | connected
  | disconnected
  | training
  | idle
  | connecting
  | errorStatus
deriving DecidableEq

/-- The React state owned by useTaxiState (both hook revisions declare the
same useState fields): connectionStatus, gridState, agentParams,
trainingState, episodeHistory, lastAction, initialized. -/
structure ClientState where
  connectionStatus : ConnStatus
  gridState : GridState
  agentParams : AgentParams
  trainingState : TrainingState
  episodeHistory : List EpisodeStats
  lastAction : Option LastAction
  initialized : Bool
deriving DecidableEq

/-- Transcribes the initialGridState constant of taxi.ts. -/
def initialGridState : GridState :=
  { gridSize := 4
    taxi := Position.mk 0 0
    passenger := some (Position.mk 3 3)
    destination := some (Position.mk 0 3)
    obstacles := [Position.mk 1 1, Position.mk 2 2]
    isPassengerInTaxi := false }

/-- Transcribes the initialAgentParams constant of taxi.ts. -/
def initialAgentParams : AgentParams :=
  { gamma := 9/10, alpha := 1/10, epsilon := 1/10, qTableSize := 0 }

/-- Transcribes the initialTrainingState constant of taxi.ts. -/
def initialTrainingState : TrainingState :=
  { isTraining := false
    currentEpisode := 0
    totalEpisodes := 1000
    currentStep := 0
    currentReward := 0
    speedMultiplier := 1 }

/-- The client state right after mount, before any server contact:
each useState receives its documented initial value. -/
def initialClientState : ClientState :=
  { connectionStatus := ConnStatus.disconnected
    gridState := initialGridState
    agentParams := initialAgentParams
    trainingState := initialTrainingState
    episodeHistory := []
    lastAction := none
    initialized := false }

/-- The last n elements of a list; transcribes the JS Array.slice(-n) used on
the episode history (for a nonempty array, slice(-n) returns the final
min(n, length) elements in order). -/
def takeLast (n : Nat) (l : List EpisodeStats) : List EpisodeStats :=
  l.drop (l.length - n)

/-- Transcribes avgReward of useTaxiState (identical in both hook revisions):
episodeHistory.slice(-100).reduce(sum of reward) / Math.min(length, 100),
and 0 for an empty history. -/
def avgReward (episodeHistory : List EpisodeStats) : ℚ :=
  if 0 < episodeHistory.length then
    ((takeLast 100 episodeHistory).map (fun e => e.reward)).sum /
      ((min episodeHistory.length 100 : Nat) : ℚ)
  else 0

/-- Transcribes avgSteps of useTaxiState (identical in both hook revisions). -/
def avgSteps (episodeHistory : List EpisodeStats) : ℚ :=
  if 0 < episodeHistory.length then
    ((takeLast 100 episodeHistory).map (fun e => e.steps)).sum /
      ((min episodeHistory.length 100 : Nat) : ℚ)
  else 0

/-- The arithmetic mean of a list of rationals (the notion of average the
spec text describes; division by zero yields 0 in ℚ, matching the
0-when-empty convention). -/
def mean (l : List ℚ) : ℚ := l.sum / (l.length : ℚ)

/-- Transcribes the update inside the episode_complete handler of the socket
hook: prev.slice(-99) concatenated with the new entry (the source comment
reads: keep last 100). -/
def appendEpisode (prev : List EpisodeStats) (e : EpisodeStats) : List EpisodeStats :=
  takeLast 99 prev ++ [e]

/-- The episode history produced by a sequence of episode_complete events
handled in order, starting from the empty history. -/
def histAfter (es : List EpisodeStats) : List EpisodeStats :=
  es.foldl appendEpisode []

/-- Transcribes maxObstacles of toggleObstacle (both hook revisions):
gridSize 3 allows 2 obstacles, otherwise 3. -/
def maxObstaclesFor (st : GridState) : Nat :=
  if st.gridSize = 3 then 2 else 3

/-- Removes the first list element with the given coordinates; transcribes
obstacles.filter((o, i) such that i differs from existingIdx), where
existingIdx = findIndex(o => o.x === x and o.y === y). -/
def removeFirst (x y : Int) : List Position → List Position
  | [] => []
  | o :: rest =>
      if o.x = x ∧ o.y = y then rest else o :: removeFirst x y rest

/-- Transcribes toggleObstacle of the local hook revision (taxi.ts lines
154-174): no-op once initialized; remove the cell if present; otherwise add
it when under the obstacle cap.  This revision has no (0,0) guard. -/
def toggleObstacleLocal (initialized : Bool) (st : GridState) (x y : Int) : GridState :=
  if initialized then st
  else if st.obstacles.any (fun o => decide (o.x = x) && decide (o.y = y)) then
    { st with obstacles := removeFirst x y st.obstacles }
  else if st.obstacles.length < maxObstaclesFor st then
    { st with obstacles := st.obstacles ++ [Position.mk x y] }
  else st

/-- Transcribes toggleObstacle of the socket hook revision (taxi.ts lines
476-499): as the local one, but the taxi starting position (0,0) is
rejected before either branch. -/
def toggleObstacleSocket (initialized : Bool) (st : GridState) (x y : Int) : GridState :=
  if initialized then st
  else if decide (x = 0) && decide (y = 0) then st
  else if st.obstacles.any (fun o => decide (o.x = x) && decide (o.y = y)) then
    { st with obstacles := removeFirst x y st.obstacles }
  else if st.obstacles.length < maxObstaclesFor st then
    { st with obstacles := st.obstacles ++ [Position.mk x y] }
  else st

/-- Transcribes setGridSize of the local hook revision (taxi.ts lines
176-183): no-op once initialized; otherwise set the size and clear all
obstacles. -/
def setGridSizeLocal (initialized : Bool) (st : GridState) (size : Int) : GridState :=
  if initialized then st
  else { st with gridSize := size, obstacles := [] }

/-- Transcribes setGridSize of the socket hook revision (taxi.ts lines
501-508): no-op once initialized; otherwise set the size and keep only the
obstacles with x < size and y < size. -/
def setGridSizeSocket (initialized : Bool) (st : GridState) (size : Int) : GridState :=
  if initialized then st
  else
    { st with gridSize := size
              obstacles := st.obstacles.filter
                (fun o => decide (o.x < size) && decide (o.y < size)) }

/-- Transcribes initialize of the local hook revision (taxi.ts lines
92-104): sets grid size and obstacles, taxi at (0,0), passenger at
(gridSize-1, gridSize-1), destination at (0, gridSize-1), passenger not in
taxi, marks the session initialized and idle. -/
def initializeLocal (gridSize : Int) (obstacles : List Position) (s : ClientState) :
    ClientState :=
  { s with
      gridState :=
        { s.gridState with
            gridSize := gridSize
            obstacles := obstacles
            taxi := Position.mk 0 0
            passenger := some (Position.mk (gridSize - 1) (gridSize - 1))
            destination := some (Position.mk 0 (gridSize - 1))
            isPassengerInTaxi := false }
      initialized := true
      connectionStatus := ConnStatus.idle }

/-- Transcribes reset of the local hook revision (taxi.ts lines 138-152):
re-places taxi, passenger and destination from the retained grid size,
resets training state and last action, and clears the episode history and
the q-table size exactly when clearQTable is requested. -/
def resetLocal (clearQTable : Bool) (s : ClientState) : ClientState :=
  { s with
      gridState :=
        { s.gridState with
            taxi := Position.mk 0 0
            passenger := some (Position.mk (s.gridState.gridSize - 1)
                                           (s.gridState.gridSize - 1))
            destination := some (Position.mk 0 (s.gridState.gridSize - 1))
            isPassengerInTaxi := false }
      trainingState := initialTrainingState
      lastAction := none
      episodeHistory := if clearQTable then [] else s.episodeHistory
      agentParams :=
        if clearQTable then { s.agentParams with qTableSize := 0 }
        else s.agentParams }

/-- Messages the socket hook emits to the server. -/
inductive OutMsg
  | initMsg (gridSize : Int) (obstacles : List (Int × Int))
  | stopTrainingMsg
  | resetMsg (resetAgent : Bool)
deriving DecidableEq

/-- Transcribes stopTraining of the socket hook revision (taxi.ts lines
443-446): with a live socket it only emits stop_training; it performs no
state update; without a socket it does nothing. -/
def stopTrainingClient (hasSocket : Bool) (s : ClientState) : ClientState × List OutMsg :=
  if hasSocket then (s, [OutMsg.stopTrainingMsg]) else (s, [])

/-- Transcribes reset of the socket hook revision (taxi.ts lines 468-474):
emits the reset command and, when clearQTable, clears the local episode
history; nothing else changes client-side. -/
def resetSocketClient (hasSocket : Bool) (clearQTable : Bool) (s : ClientState) :
    ClientState × List OutMsg :=
  if hasSocket then
    (if clearQTable then { s with episodeHistory := [] } else s,
     [OutMsg.resetMsg clearQTable])
  else (s, [])

/-- Server-to-client notifications handled by the socket hook, with the
payload fields the handlers actually read. -/
inductive SocketEvent
  | connectEv
  | disconnectEv
  | initSuccess (gs : GridState) (ap : AgentParams)
  | stepResult (gs : GridState) (ap : AgentParams) (la : LastAction)
  | stepUpdate (gs : GridState) (ap : AgentParams) (la : LastAction)
      (episode step : Int) (totalReward : ℚ)
  | episodeComplete (e : EpisodeStats)
  | trainingStartedEv
  | trainingStoppedEv
  | trainingCompleteEv
  | resetSuccess (gs : GridState)
  | agentConfigured (ap : AgentParams)
deriving DecidableEq

/-- Transcribes the socket hook event handlers installed in its useEffect
(taxi.ts lines 269-406), one case per newSocket.on registration. -/
def handleEvent (e : SocketEvent) (s : ClientState) : ClientState :=
  match e with
  | SocketEvent.connectEv =>
      { s with connectionStatus := ConnStatus.connected }
  | SocketEvent.disconnectEv =>
      { s with connectionStatus := ConnStatus.disconnected, initialized := false }
  | SocketEvent.initSuccess gs ap =>
      { s with gridState := gs, agentParams := ap,
               initialized := true, connectionStatus := ConnStatus.idle }
  | SocketEvent.stepResult gs ap la =>
      { s with gridState := gs, agentParams := ap, lastAction := some la }
  | SocketEvent.stepUpdate gs ap la episode step totalReward =>
      { s with gridState := gs, agentParams := ap,
               trainingState :=
                 { s.trainingState with
                     currentEpisode := episode
                     currentStep := step
                     currentReward := totalReward }
               lastAction := some la }
  | SocketEvent.episodeComplete e =>
      { s with episodeHistory := appendEpisode s.episodeHistory e }
  | SocketEvent.trainingStartedEv =>
      { s with connectionStatus := ConnStatus.training }
  | SocketEvent.trainingStoppedEv =>
      { s with connectionStatus := ConnStatus.idle,
               trainingState := { s.trainingState with isTraining := false } }
  | SocketEvent.trainingCompleteEv =>
      { s with connectionStatus := ConnStatus.idle,
               trainingState := { s.trainingState with isTraining := false } }
  | SocketEvent.resetSuccess gs =>
      { s with gridState := gs, trainingState := initialTrainingState,
               lastAction := none }
  | SocketEvent.agentConfigured ap =>
      { s with agentParams := ap }

/-- A position lies inside the g-by-g grid: 0 <= x, y < g. -/
def inBounds (g : Int) (p : Position) : Bool :=
  decide (0 ≤ p.x) && decide (p.x < g) && decide (0 ≤ p.y) && decide (p.y < g)

/-- The grid-state bounds invariant the spec states for Position: taxi,
passenger, destination and every obstacle lie within the current grid. -/
def gridInBoundsInv (st : GridState) : Bool :=
  inBounds st.gridSize st.taxi &&
  (match st.passenger with
   | some p => inBounds st.gridSize p
   | none => true) &&
  (match st.destination with
   | some p => inBounds st.gridSize p
   | none => true) &&
  st.obstacles.all (fun o => inBounds st.gridSize o)

/-- The obstacle-set invariant of the GridConfig data model: at most
gridSize - 1 obstacles and never the taxi start cell (0, 0). -/
def obstacleInv (st : GridState) : Prop :=
  st.obstacles.length ≤ (st.gridSize - 1).toNat ∧
  Position.mk 0 0 ∉ st.obstacles

instance (st : GridState) : Decidable (obstacleInv st) := by
  unfold obstacleInv
  infer_instance

/-- Modelled from the spec: the actions of the backend GridWorld component
(section 4.1), which is not under src. -/
inductive Action
  | NORTH
  | SOUTH
  | EAST
  | WEST
  | PICK
  | DROP
deriving DecidableEq

/-- Modelled from the spec: the GridConfig of the backend GridWorld
component, which is not under src. -/
structure GridConfig where
  gridSize : Int
  obstacles : List Position
deriving DecidableEq

/-- Modelled from the spec: the EpisodeState of the backend GridWorld
component, which is not under src (section 3). -/
structure EpisodeState where
  taxi : Position
  passenger : Option Position
  destination : Option Position
  inTaxi : Bool
  totalReward : Int
  steps : Nat
deriving DecidableEq

/-- Modelled from the spec: GridWorld.reset of the backend, which is not
under src (section 4.1): taxi at (0,0), passenger at
(gridSize-1, gridSize-1), destination at (0, gridSize-1), inTaxi false,
reward 0, steps 0.  Configuration validation is a separate concern and is
not part of the placement modelled here. -/
def GridWorld.reset (cfg : GridConfig) : EpisodeState :=
  { taxi := Position.mk 0 0
    passenger := some (Position.mk (cfg.gridSize - 1) (cfg.gridSize - 1))
    destination := some (Position.mk 0 (cfg.gridSize - 1))
    inTaxi := false
    totalReward := 0
    steps := 0 }

/-- The proposed taxi position for a movement action (coordinate system of
the repository: x grows EAST, y grows NORTH). -/
def move (a : Action) (p : Position) : Position :=
  match a with
  | Action.NORTH => Position.mk p.x (p.y + 1)
  | Action.SOUTH => Position.mk p.x (p.y - 1)
  | Action.EAST => Position.mk (p.x + 1) p.y
  | Action.WEST => Position.mk (p.x - 1) p.y
  | Action.PICK => p
  | Action.DROP => p

/-- Modelled from the spec: GridWorld.step of the backend, which is not
under src (section 4.1, with the reward table of src/backend/API.md):
movement costs -1, a blocked move -5; PICK yields 0 exactly when the taxi
is on the waiting passenger, otherwise -5; DROP yields +10 and terminal
exactly when the passenger is in the taxi at the destination, otherwise -5;
every step increments the step count and accumulates the reward. -/
def GridWorld.step (cfg : GridConfig) (s : EpisodeState) (a : Action) :
    EpisodeState × Int × Bool :=
  let out :=
    match a with
    | Action.PICK =>
        if s.passenger = some s.taxi then
          ({ s with passenger := none, inTaxi := true }, (0 : Int), false)
        else (s, -5, false)
    | Action.DROP =>
        if s.inTaxi = true ∧ s.destination = some s.taxi then
          (s, 10, true)
        else (s, -5, false)
    | m =>
        let p := move m s.taxi
        if inBounds cfg.gridSize p = true ∧ p ∉ cfg.obstacles then
          ({ s with taxi := p }, -1, false)
        else (s, -5, false)
  ({ out.1 with steps := out.1.steps + 1, totalReward := out.1.totalReward + out.2.1 },
   out.2.1, out.2.2)

/-- Modelled from the spec: running an action sequence through
GridWorld.step, returning the final episode state together with the
terminal flag of the last step taken (false for the empty sequence). -/
def runActions (cfg : GridConfig) (acts : List Action) (s : EpisodeState) :
    EpisodeState × Bool :=
  acts.foldl
    (fun acc a =>
      let r := GridWorld.step cfg acc.1 a
      (r.1, r.2.2))
    (s, false)

/-- The four grid neighbours of a cell. -/
def neighbors (p : Position) : List Position :=
  [Position.mk (p.x + 1) p.y, Position.mk (p.x - 1) p.y,
   Position.mk p.x (p.y + 1), Position.mk p.x (p.y - 1)]

/-- A cell that is inside the grid and not an obstacle. -/
def isFree (g : Int) (obs : List Position) (p : Position) : Bool :=
  inBounds g p && decide (p ∉ obs)

/-- One reachability step between cells: q is a free grid neighbour of p. -/
def stepTo (g : Int) (obs : List Position) (p q : Position) : Prop :=
  q ∈ neighbors p ∧ isFree g obs q = true

/-- Modelled from the spec: the connectivity notion of section 3 — a cell is
reachable from the taxi start (0,0) through free neighbouring cells. -/
def ReachableFromStart (g : Int) (obs : List Position) (p : Position) : Prop :=
  Relation.ReflTransGen (stepTo g obs) (Position.mk 0 0) p

/-- The 4x4 grid with no obstacles, as in the round-trip scenario. -/
def cfg4 : GridConfig := { gridSize := 4, obstacles := [] }

/-- The action sequence of the round-trip scenario. -/
def roundTripActions : List Action :=
  [Action.EAST, Action.EAST, Action.EAST,
   Action.NORTH, Action.NORTH, Action.NORTH,
   Action.PICK,
   Action.WEST, Action.WEST, Action.WEST,
   Action.DROP]

/-- A pre-initialization toggle accepted by the socket hook: removing the
default obstacle at (2,2). -/
def toggleTrace1 : GridState := toggleObstacleSocket false initialGridState 2 2

/-- A further accepted toggle adding an obstacle at (1,0). -/
def toggleTrace2 : GridState := toggleObstacleSocket false toggleTrace1 1 0

/-- A further accepted toggle adding an obstacle at (0,1): it walls the taxi
start (0,0) off from the rest of the grid. -/
def toggleTrace3 : GridState := toggleObstacleSocket false toggleTrace2 0 1

/-- The obstacle set [(1,1), (1,0), (0,1)] produced by the toggle trace. -/
def cornerObstacles : List Position :=
  [Position.mk 1 1, Position.mk 1 0, Position.mk 0 1]

/-- A client state whose training flag is set, as during active training. -/
def trainingClientState : ClientState :=
  { initialClientState with
      trainingState := { initialTrainingState with isTraining := true } }

/-! ### Helper lemmas -/

lemma takeLast_length (n : Nat) (l : List EpisodeStats) :
    (takeLast n l).length = min n l.length := by
  simp only [takeLast, List.length_drop]
  omega

lemma takeLast_nil (n : Nat) : takeLast n [] = [] := by
  simp [takeLast]

lemma takeLast_takeLast (m n : Nat) (l : List EpisodeStats) :
    takeLast m (takeLast n l) = takeLast (min m n) l := by
  simp only [takeLast, List.length_drop, List.drop_drop]
  congr 1
  omega

lemma takeLast_append_singleton (n : Nat) (l : List EpisodeStats) (e : EpisodeStats) :
    takeLast (n + 1) (l ++ [e]) = takeLast n l ++ [e] := by
  simp only [takeLast, List.length_append, List.length_cons, List.length_nil]
  rw [show l.length + 1 - (n + 1) = l.length - n by omega]
  exact List.drop_append_of_le_length (by omega)

lemma appendEpisode_takeLast (p : List EpisodeStats) (e : EpisodeStats) :
    appendEpisode (takeLast 100 p) e = takeLast 100 (p ++ [e]) := by
  have h1 : takeLast 99 (takeLast 100 p) = takeLast 99 p := by
    rw [takeLast_takeLast]
    norm_num
  have h2 : takeLast 100 (p ++ [e]) = takeLast 99 p ++ [e] :=
    takeLast_append_singleton 99 p e
  rw [appendEpisode, h1, h2]

lemma foldl_appendEpisode (es : List EpisodeStats) :
    ∀ p : List EpisodeStats,
      es.foldl appendEpisode (takeLast 100 p) = takeLast 100 (p ++ es) := by
  induction es with
  | nil => intro p; simp
  | cons e es ih =>
      intro p
      rw [List.foldl_cons, appendEpisode_takeLast, ih (p ++ [e])]
      simp

lemma histAfter_eq_takeLast (es : List EpisodeStats) :
    histAfter es = takeLast 100 es := by
  have h := foldl_appendEpisode es []
  simpa [histAfter, takeLast_nil] using h

lemma removeFirst_length_le (x y : Int) (l : List Position) :
    (removeFirst x y l).length ≤ l.length := by
  induction l with
  | nil => simp [removeFirst]
  | cons o rest ih =>
      rw [removeFirst]
      by_cases h : o.x = x ∧ o.y = y
      · rw [if_pos h]
        simp
      · rw [if_neg h]
        simp only [List.length_cons]
        omega

lemma removeFirst_subset (x y : Int) (l : List Position) (p : Position)
    (h : p ∈ removeFirst x y l) : p ∈ l := by
  induction l with
  | nil => simp [removeFirst] at h
  | cons o rest ih =>
      rw [removeFirst] at h
      by_cases hc : o.x = x ∧ o.y = y
      · rw [if_pos hc] at h
        exact List.mem_cons_of_mem o h
      · rw [if_neg hc] at h
        rcases List.mem_cons.1 h with h1 | h1
        · exact h1 ▸ List.mem_cons_self o rest
        · exact List.mem_cons_of_mem o (ih h1)

lemma reach_cornerObstacles_only_origin (p : Position)
    (h : ReachableFromStart 4 cornerObstacles p) : p = Position.mk 0 0 := by
  induction h with
  | refl => rfl
  | tail hab hbc ih =>
      obtain ⟨hmem, hfree⟩ := hbc
      rw [ih] at hmem
      simp only [neighbors, List.mem_cons, List.mem_singleton,
        List.not_mem_nil, or_false] at hmem
      rcases hmem with h1 | h1 | h1 | h1 <;> subst h1 <;>
        exact absurd hfree (by decide)

/-! ### Claims -/

/-- C4: for every episode history, the reported average reward and average
steps equal the arithmetic mean over the most recent min(length, 100)
completed episodes (the list takeLast 100 hist), and both equal 0 when no
episode has completed. -/
theorem c4_averages_are_rolling_means (hist : List EpisodeStats) :
    avgReward hist = mean ((takeLast 100 hist).map (fun e => e.reward)) ∧
    avgSteps hist = mean ((takeLast 100 hist).map (fun e => e.steps)) ∧
    avgReward [] = 0 ∧ avgSteps [] = 0 := by
  have hlen : ∀ f : EpisodeStats → ℚ,
      (((takeLast 100 hist).map f).length : ℚ) = ((min hist.length 100 : Nat) : ℚ) := by
    intro f
    rw [List.length_map, takeLast_length]
    norm_num [Nat.min_comm]
  refine ⟨?_, ?_, by simp [avgReward], by simp [avgSteps]⟩
  · by_cases h : 0 < hist.length
    · rw [avgReward, if_pos h, mean, hlen]
    · have hnil : hist = [] := by
        cases hist with
        | nil => rfl
        | cons a l => simp at h
      subst hnil
      simp [avgReward, mean, takeLast_nil]
  · by_cases h : 0 < hist.length
    · rw [avgSteps, if_pos h, mean, hlen]
    · have hnil : hist = [] := by
        cases hist with
        | nil => rfl
        | cons a l => simp at h
      subst hnil
      simp [avgSteps, mean, takeLast_nil]

/-- C5: for every sequence of episode-complete events handled from an empty
history, the rolling history is exactly the most recent min(length, 100)
events in completion order — hence it never exceeds 100 entries and, once
the cap is reached, each append drops the oldest entry (FIFO). -/
theorem c5_history_fifo_capped (es : List EpisodeStats) (e : EpisodeStats) :
    histAfter es = takeLast 100 es ∧
    (histAfter es).length = min es.length 100 ∧
    histAfter (es ++ [e]) = takeLast 99 (histAfter es) ++ [e] := by
  refine ⟨histAfter_eq_takeLast es, ?_, ?_⟩
  · rw [histAfter_eq_takeLast, takeLast_length, Nat.min_comm]
  · rw [histAfter_eq_takeLast, histAfter_eq_takeLast, takeLast_takeLast]
    have h99 : min 99 100 = 99 := by norm_num
    rw [h99]
    exact takeLast_append_singleton 99 es e

/-- C1: on a 4x4 grid with no obstacles, the action sequence EAST, EAST,
EAST, NORTH, NORTH, NORTH, PICK, WEST, WEST, WEST, DROP executed from the
reset state ends the episode with terminal true and cumulative reward
exactly +1. -/
theorem c1_round_trip_scenario :
    (runActions cfg4 roundTripActions (GridWorld.reset cfg4)).2 = true ∧
    (runActions cfg4 roundTripActions (GridWorld.reset cfg4)).1.totalReward = 1 ∧
    (runActions cfg4 roundTripActions (GridWorld.reset cfg4)).1.steps = 11 := by
  decide

/-- C2: for every valid grid configuration, the modelled backend reset
places the taxi at (0,0), the passenger at (gridSize-1, gridSize-1), the
destination at (0, gridSize-1), with inTaxi false, cumulative reward 0 and
step count 0; and the frontend local-hook reset and initialize perform the
same placement and zero the episode counters. -/
theorem c2_reset_and_initialize_placement (cfg : GridConfig)
    (h : cfg.gridSize = 3 ∨ cfg.gridSize = 4)
    (b : Bool) (s : ClientState) (g : Int) (obs : List Position) :
    (GridWorld.reset cfg).taxi = Position.mk 0 0 ∧
    (GridWorld.reset cfg).passenger =
      some (Position.mk (cfg.gridSize - 1) (cfg.gridSize - 1)) ∧
    (GridWorld.reset cfg).destination = some (Position.mk 0 (cfg.gridSize - 1)) ∧
    (GridWorld.reset cfg).inTaxi = false ∧
    (GridWorld.reset cfg).totalReward = 0 ∧
    (GridWorld.reset cfg).steps = 0 ∧
    (resetLocal b s).gridState.taxi = Position.mk 0 0 ∧
    (resetLocal b s).gridState.passenger =
      some (Position.mk (s.gridState.gridSize - 1) (s.gridState.gridSize - 1)) ∧
    (resetLocal b s).gridState.destination =
      some (Position.mk 0 (s.gridState.gridSize - 1)) ∧
    (resetLocal b s).gridState.isPassengerInTaxi = false ∧
    (resetLocal b s).trainingState.currentReward = 0 ∧
    (resetLocal b s).trainingState.currentStep = 0 ∧
    (initializeLocal g obs s).gridState.taxi = Position.mk 0 0 ∧
    (initializeLocal g obs s).gridState.passenger =
      some (Position.mk (g - 1) (g - 1)) ∧
    (initializeLocal g obs s).gridState.destination =
      some (Position.mk 0 (g - 1)) ∧
    (initializeLocal g obs s).gridState.isPassengerInTaxi = false := by
  refine ⟨rfl, rfl, rfl, rfl, rfl, rfl, rfl, rfl, rfl, rfl, rfl, rfl, rfl,
    rfl, rfl, rfl⟩

/-- Witness for C2 at the 4x4 configuration with no obstacles. -/
theorem c2_reset_and_initialize_placement_witness :
    (GridWorld.reset cfg4).taxi = Position.mk 0 0 ∧
    (GridWorld.reset cfg4).passenger =
      some (Position.mk (cfg4.gridSize - 1) (cfg4.gridSize - 1)) ∧
    (GridWorld.reset cfg4).destination = some (Position.mk 0 (cfg4.gridSize - 1)) ∧
    (GridWorld.reset cfg4).inTaxi = false ∧
    (GridWorld.reset cfg4).totalReward = 0 ∧
    (GridWorld.reset cfg4).steps = 0 ∧
    (resetLocal true initialClientState).gridState.taxi = Position.mk 0 0 ∧
    (resetLocal true initialClientState).gridState.passenger =
      some (Position.mk (initialClientState.gridState.gridSize - 1)
                        (initialClientState.gridState.gridSize - 1)) ∧
    (resetLocal true initialClientState).gridState.destination =
      some (Position.mk 0 (initialClientState.gridState.gridSize - 1)) ∧
    (resetLocal true initialClientState).gridState.isPassengerInTaxi = false ∧
    (resetLocal true initialClientState).trainingState.currentReward = 0 ∧
    (resetLocal true initialClientState).trainingState.currentStep = 0 ∧
    (initializeLocal 4 [] initialClientState).gridState.taxi = Position.mk 0 0 ∧
    (initializeLocal 4 [] initialClientState).gridState.passenger =
      some (Position.mk (4 - 1) (4 - 1)) ∧
    (initializeLocal 4 [] initialClientState).gridState.destination =
      some (Position.mk 0 (4 - 1)) ∧
    (initializeLocal 4 [] initialClientState).gridState.isPassengerInTaxi = false :=
  c2_reset_and_initialize_placement cfg4 (Or.inr rfl) true initialClientState 4 []

/-- C3 counterexample: a sequence of three obstacle toggles, each accepted
by the socket hook before initialization, leaves the 4x4 grid with
obstacles (1,1), (1,0), (0,1); the non-obstacle cell (3,3) is then not
reachable from the taxi start (0,0), so an accepted obstacle placement can
disconnect the grid, contrary to the claim. -/
theorem c3_connectivity_counterexample :
    toggleTrace3.gridSize = 4 ∧
    toggleTrace3.obstacles = cornerObstacles ∧
    isFree 4 cornerObstacles (Position.mk 3 3) = true ∧
    ¬ ReachableFromStart 4 cornerObstacles (Position.mk 3 3) := by
  refine ⟨by decide, by decide, by decide, fun h => ?_⟩
  exact absurd (reach_cornerObstacles_only_origin _ h) (by decide)

/-- C3 amended: before initialization the socket hook accepts any obstacle
toggle at a cell other than (0,0) that is not yet an obstacle while under
the obstacle cap, appending it to the obstacle set; connectivity of the
resulting grid is never examined. -/
theorem c3_amended_toggle_ignores_connectivity (st : GridState) (x y : Int)
    (h0 : ¬(x = 0 ∧ y = 0))
    (h1 : st.obstacles.any (fun o => decide (o.x = x) && decide (o.y = y)) = false)
    (h2 : st.obstacles.length < maxObstaclesFor st) :
    toggleObstacleSocket false st x y =
      { st with obstacles := st.obstacles ++ [Position.mk x y] } := by
  have g : (decide (x = 0) && decide (y = 0)) = false := by
    rcases Decidable.em (x = 0) with hx | hx
    · rcases Decidable.em (y = 0) with hy | hy
      · exact absurd ⟨hx, hy⟩ h0
      · simp [hy]
    · simp [hx]
  simp [toggleObstacleSocket, g, h1, h2]

/-- Witness for C3 amended: the third toggle of the disconnecting trace is
accepted exactly as an append. -/
theorem c3_amended_toggle_ignores_connectivity_witness :
    toggleObstacleSocket false toggleTrace2 0 1 =
      { toggleTrace2 with obstacles := toggleTrace2.obstacles ++ [Position.mk 0 1] } :=
  c3_amended_toggle_ignores_connectivity toggleTrace2 0 1 (by decide) (by decide)
    (by decide)

/-- C6 counterexample: the local hook revision of toggleObstacle has no
(0,0) guard, so from the initial pre-initialization grid state, which
satisfies the obstacle invariant, toggling cell (0,0) adds the taxi start
cell to the obstacle set and breaks the invariant. -/
theorem c6_toggle_counterexample :
    obstacleInv initialGridState ∧
    Position.mk 0 0 ∈ (toggleObstacleLocal false initialGridState 0 0).obstacles ∧
    ¬ obstacleInv (toggleObstacleLocal false initialGridState 0 0) := by
  decide

/-- C6 amended: for grid sizes 3 and 4, the socket hook revision of
toggleObstacle preserves the full obstacle invariant (at most gridSize - 1
obstacles and never the cell (0,0)); the local hook revision preserves only
the size bound, since it lacks the (0,0) guard. -/
theorem c6_amended_toggle_invariant (st : GridState) (x y : Int)
    (hg : st.gridSize = 3 ∨ st.gridSize = 4)
    (hinv : obstacleInv st) :
    obstacleInv (toggleObstacleSocket false st x y) ∧
    (toggleObstacleLocal false st x y).obstacles.length ≤ (st.gridSize - 1).toNat := by
  have hmax : maxObstaclesFor st = (st.gridSize - 1).toNat := by
    rcases hg with h3 | h4
    · simp [maxObstaclesFor, h3]
    · rw [maxObstaclesFor, if_neg (by rw [h4]; decide), h4]
      decide
  constructor
  · rw [toggleObstacleSocket, if_neg (by simp)]
    by_cases hxy : (decide (x = 0) && decide (y = 0)) = true
    · rw [if_pos hxy]
      exact hinv
    · rw [if_neg hxy]
      by_cases hfound :
          (st.obstacles.any (fun o => decide (o.x = x) && decide (o.y = y))) = true
      · rw [if_pos hfound]
        refine ⟨le_trans (removeFirst_length_le x y st.obstacles) hinv.1, ?_⟩
        intro hmem
        exact hinv.2 (removeFirst_subset x y st.obstacles _ hmem)
      · rw [if_neg hfound]
        by_cases hlen : st.obstacles.length < maxObstaclesFor st
        · rw [if_pos hlen]
          rw [hmax] at hlen
          refine ⟨by simp only [obstacleInv, List.length_append]; simp; omega, ?_⟩
          simp only [obstacleInv, List.mem_append, List.mem_singleton]
          rintro (hmem | hmem)
          · exact hinv.2 hmem
          · have : x = 0 ∧ y = 0 := by
              have := Position.mk.injEq 0 0 x y ▸ hmem
              exact ⟨(Position.mk.inj hmem).1.symm ▸ rfl, (Position.mk.inj hmem).2.symm ▸ rfl⟩
            rw [this.1, this.2] at hxy
            simp at hxy
        · rw [if_neg hlen]
          exact hinv
  · rw [toggleObstacleLocal, if_neg (by simp)]
    by_cases hfound :
        (st.obstacles.any (fun o => decide (o.x = x) && decide (o.y = y))) = true
    · rw [if_pos hfound]
      exact le_trans (removeFirst_length_le x y st.obstacles) hinv.1
    · rw [if_neg hfound]
      by_cases hlen : st.obstacles.length < maxObstaclesFor st
      · rw [if_pos hlen]
        rw [hmax] at hlen
        simp only [List.length_append, List.length_cons, List.length_nil]
        omega
      · rw [if_neg hlen]
        exact hinv.1

/-- Witness for C6 amended at the initial grid state and cell (3,3). -/
theorem c6_amended_toggle_invariant_witness :
    obstacleInv (toggleObstacleSocket false initialGridState 3 3) ∧
    (toggleObstacleLocal false initialGridState 3 3).obstacles.length ≤
      (initialGridState.gridSize - 1).toNat :=
  c6_amended_toggle_invariant initialGridState 3 3 (Or.inr rfl) (by decide)

/-- C7: for either value of the clearAgent flag, the local-hook reset
re-places the episode from the retained configuration while leaving grid
size, obstacle set and the initialized flag unchanged; it clears the
episode history and the q-table size exactly when the flag is set, and
leaves them untouched otherwise; the socket-hook reset likewise only clears
the local episode history when the flag is set and changes nothing else
client-side. -/
theorem c7_reset_frame_and_clear (s : ClientState) :
    (resetLocal true s).gridState.gridSize = s.gridState.gridSize ∧
    (resetLocal true s).gridState.obstacles = s.gridState.obstacles ∧
    (resetLocal true s).initialized = s.initialized ∧
    (resetLocal true s).episodeHistory = [] ∧
    (resetLocal true s).agentParams.qTableSize = 0 ∧
    (resetLocal true s).gridState.taxi = Position.mk 0 0 ∧
    (resetLocal false s).gridState.gridSize = s.gridState.gridSize ∧
    (resetLocal false s).gridState.obstacles = s.gridState.obstacles ∧
    (resetLocal false s).initialized = s.initialized ∧
    (resetLocal false s).episodeHistory = s.episodeHistory ∧
    (resetLocal false s).agentParams = s.agentParams ∧
    (resetLocal false s).gridState.taxi = Position.mk 0 0 ∧
    (resetSocketClient true true s).1.gridState = s.gridState ∧
    (resetSocketClient true true s).1.initialized = s.initialized ∧
    (resetSocketClient true true s).1.episodeHistory = [] ∧
    (resetSocketClient true true s).1.agentParams = s.agentParams ∧
    (resetSocketClient true false s).1 = s := by
  refine ⟨rfl, rfl, rfl, rfl, rfl, rfl, rfl, rfl, rfl, rfl, rfl, rfl, rfl,
    rfl, rfl, rfl, rfl⟩

/-- C8 counterexample: the initial pre-initialization grid state satisfies
the position bounds invariant, yet the socket hook accepts an obstacle
toggle at (9,9), which lies outside the 4x4 grid, and a pre-initialization
setGridSize to 3 keeps the passenger at (3,3), outside the new bounds; so
not every state-changing operation preserves the invariant. -/
theorem c8_bounds_counterexample :
    gridInBoundsInv initialGridState = true ∧
    (toggleObstacleSocket false initialGridState 9 9).gridSize =
      initialGridState.gridSize ∧
    gridInBoundsInv (toggleObstacleSocket false initialGridState 9 9) = false ∧
    (setGridSizeSocket false initialGridState 3).passenger =
      some (Position.mk 3 3) ∧
    gridInBoundsInv (setGridSizeSocket false initialGridState 3) = false := by
  decide

/-- C8 amended: the socket-hook setGridSize keeps exactly the obstacles
within the new bounds (so shrinking 4 to 3 removes every obstacle outside
them), the local-hook setGridSize clears the obstacle list, and initialize
places taxi, passenger and destination within bounds for any positive grid
size; but toggleObstacle does not bounds-check its cell and setGridSize
leaves the passenger and destination positions unchanged. -/
theorem c8_amended_bounds (st : GridState) (size : Int) (o : Position)
    (ho : o ∈ (setGridSizeSocket false st size).obstacles)
    (s : ClientState) (g : Int) (obs : List Position) (hg : 1 ≤ g) :
    (o.x < size ∧ o.y < size) ∧
    (setGridSizeLocal false st size).obstacles = [] ∧
    (initializeLocal g obs s).gridState.taxi = Position.mk 0 0 ∧
    (initializeLocal g obs s).gridState.passenger =
      some (Position.mk (g - 1) (g - 1)) ∧
    (initializeLocal g obs s).gridState.destination =
      some (Position.mk 0 (g - 1)) ∧
    inBounds g (Position.mk 0 0) = true ∧
    inBounds g (Position.mk (g - 1) (g - 1)) = true ∧
    inBounds g (Position.mk 0 (g - 1)) = true := by
  refine ⟨?_, rfl, rfl, rfl, rfl, ?_, ?_, ?_⟩
  · rw [setGridSizeSocket, if_neg (by simp)] at ho
    simp only [List.mem_filter, Bool.and_eq_true, decide_eq_true_eq] at ho
    exact ho.2
  · simp only [inBounds, Bool.and_eq_true, decide_eq_true_eq]
    omega
  · simp only [inBounds, Bool.and_eq_true, decide_eq_true_eq]
    omega
  · simp only [inBounds, Bool.and_eq_true, decide_eq_true_eq]
    omega

/-- Witness for C8 amended: shrinking the initial 4x4 state to 3 keeps the
obstacle (1,1), which lies inside the new bounds, and initializing a 4x4
grid places everything in bounds. -/
theorem c8_amended_bounds_witness :
    ((Position.mk 1 1).x < 3 ∧ (Position.mk 1 1).y < 3) ∧
    (setGridSizeLocal false initialGridState 3).obstacles = [] ∧
    (initializeLocal 4 [] initialClientState).gridState.taxi = Position.mk 0 0 ∧
    (initializeLocal 4 [] initialClientState).gridState.passenger =
      some (Position.mk (4 - 1) (4 - 1)) ∧
    (initializeLocal 4 [] initialClientState).gridState.destination =
      some (Position.mk 0 (4 - 1)) ∧
    inBounds 4 (Position.mk 0 0) = true ∧
    inBounds 4 (Position.mk (4 - 1) (4 - 1)) = true ∧
    inBounds 4 (Position.mk 0 (4 - 1)) = true :=
  c8_amended_bounds initialGridState 3 (Position.mk 1 1) (by decide)
    initialClientState 4 [] (by decide)

/-- C9: once the session is initialized, toggleObstacle and setGridSize (in
both hook revisions) leave the client grid state exactly unchanged, for
every cell and every requested size. -/
theorem c9_config_frozen_after_initialization (st : GridState) (x y size : Int) :
    toggleObstacleSocket true st x y = st ∧
    toggleObstacleLocal true st x y = st ∧
    setGridSizeSocket true st size = st ∧
    setGridSizeLocal true st size = st :=
  ⟨rfl, rfl, rfl, rfl⟩

/-- C10 counterexample: the reset_success handler also clears the client
isTraining flag, so training_stopped and training_complete are not the only
notifications whose handling moves the flag from true to false. -/
theorem c10_stop_flag_counterexample :
    trainingClientState.trainingState.isTraining = true ∧
    (handleEvent (SocketEvent.resetSuccess initialGridState)
        trainingClientState).trainingState.isTraining = false := by
  decide

/-- C10 amended: issuing a stop request never changes the client state (it
only emits the stop_training message), and the isTraining flag moves from
true to false only when a training_stopped, training_complete or
reset_success notification is handled. -/
theorem c10_amended_stop_flag (hs : Bool) (s1 : ClientState)
    (e : SocketEvent) (s2 : ClientState)
    (htrue : s2.trainingState.isTraining = true)
    (hfalse : (handleEvent e s2).trainingState.isTraining = false) :
    (stopTrainingClient hs s1).1 = s1 ∧
    (e = SocketEvent.trainingStoppedEv ∨ e = SocketEvent.trainingCompleteEv ∨
      ∃ gs, e = SocketEvent.resetSuccess gs) := by
  constructor
  · cases hs <;> rfl
  · cases e with
    | trainingStoppedEv => exact Or.inl rfl
    | trainingCompleteEv => exact Or.inr (Or.inl rfl)
    | resetSuccess gs => exact Or.inr (Or.inr ⟨gs, rfl⟩)
    | connectEv => rw [handleEvent] at hfalse; rw [htrue] at hfalse; simp at hfalse
    | disconnectEv => rw [handleEvent] at hfalse; rw [htrue] at hfalse; simp at hfalse
    | initSuccess gs ap =>
        rw [handleEvent] at hfalse; rw [htrue] at hfalse; simp at hfalse
    | stepResult gs ap la =>
        rw [handleEvent] at hfalse; rw [htrue] at hfalse; simp at hfalse
    | stepUpdate gs ap la episode step totalReward =>
        rw [handleEvent] at hfalse; rw [htrue] at hfalse; simp at hfalse
    | episodeComplete ev =>
        rw [handleEvent] at hfalse; rw [htrue] at hfalse; simp at hfalse
    | trainingStartedEv =>
        rw [handleEvent] at hfalse; rw [htrue] at hfalse; simp at hfalse
    | agentConfigured ap =>
        rw [handleEvent] at hfalse; rw [htrue] at hfalse; simp at hfalse

/-- Witness for C10 amended: handling training_stopped on a training client
state. -/
theorem c10_amended_stop_flag_witness :
    (stopTrainingClient true initialClientState).1 = initialClientState ∧
    (SocketEvent.trainingStoppedEv = SocketEvent.trainingStoppedEv ∨
      SocketEvent.trainingStoppedEv = SocketEvent.trainingCompleteEv ∨
      ∃ gs, SocketEvent.trainingStoppedEv = SocketEvent.resetSuccess gs) :=
  c10_amended_stop_flag true initialClientState SocketEvent.trainingStoppedEv
    trainingClientState (by decide) (by decide)

end TaxiMDP
